import Mathlib

/-!
Shallow embedding of `src/ddns.py` (a dynamic-DNS updater) and proofs of the
specification's claims about it.

Modelling conventions:
- The program performs at most three HTTP exchanges in a fixed order
  (public-IP lookup, zone-record lookup, optional record PATCH).  A `World`
  supplies the transport-level outcome of each of the three slots, plus the
  wall-clock time read by `datetime.now()`.
- HTTP response bodies are JSON in every run the program can complete, so the
  network is modelled at the level of parsed JSON values (`JValue`); Python's
  `json.loads` on the body text is the identity in this model.  `json.dumps`
  of a request body is likewise kept structured (`List (String × JValue)`).
- Python strings are sequences of code points, modelled as `String` /
  `List Char`.
- `sys.exit(n)` is `Outcome.exited n`; an uncaught Python exception
  (`KeyError`, `IndexError`, `TypeError`, ...) is `Outcome.crashed`, which the
  interpreter turns into process exit status 1 (`Outcome.exitStatus`).
- `urllib.parse.urlencode` is modelled without percent-escaping (the claims
  under study never depend on escaping).
-/

/-- Parsed JSON value, the model of what `json.loads` yields. -/
inductive JValue where
  | null
  | bool (b : Bool)
  | num (n : Int)
  | str (s : String)
  | arr (elems : List JValue)
  | obj (fields : List (String × JValue))

mutual

/-- Python `==` on JSON-decoded values: structural equality.  (Python's
cross-type numeric equalities such as `1 == 1.0` do not arise because the
model's only numbers are integers.) -/
def JValue.beq : JValue → JValue → Bool
  | .null, .null => true
  | .bool a, .bool b => a == b
  | .num a, .num b => a == b
  | .str a, .str b => a == b
  | .arr xs, .arr ys => JValue.beqList xs ys
  | .obj xs, .obj ys => JValue.beqFields xs ys
  | _, _ => false

def JValue.beqList : List JValue → List JValue → Bool
  | [], [] => true
  | x :: xs, y :: ys => JValue.beq x y && JValue.beqList xs ys
  | _, _ => false

def JValue.beqFields : List (String × JValue) → List (String × JValue) → Bool
  | [], [] => true
  | (k1, v1) :: xs, (k2, v2) :: ys => k1 == k2 && JValue.beq v1 v2 && JValue.beqFields xs ys
  | _, _ => false

end

/-- Python `d[k]` on a decoded JSON object: `some` value on an object that has
the key (`json.loads` keeps the last occurrence of a duplicated key), `none`
when the key is absent (`KeyError`) or the value is not an object
(`TypeError`). -/
def JValue.getField : JValue → String → Option JValue
  | .obj fs, k => fs.foldl (fun acc p => if p.1 = k then some p.2 else acc) none
  | _, _ => none

/-- Python `l[i]` on a decoded JSON value: `none` when the value is not a list
(`TypeError`) or the index is out of range (`IndexError`). -/
def JValue.getIdx : JValue → Nat → Option JValue
  | .arr xs, i => xs.get? i
  | _, _ => none

mutual

/-- Python `str()` / f-string interpolation of a JSON-decoded value.  Exact
for strings, integers, booleans and `None` (the only shapes the claims
exercise); for lists and dicts it renders Python's `repr` shape, without
modelling escaping inside nested strings. -/
def pyStr : JValue → String
  | .null => "None"
  | .bool true => "True"
  | .bool false => "False"
  | .num n => toString n
  | .str s => s
  | .arr xs => "[" ++ String.intercalate ", " (pyReprList xs) ++ "]"
  | .obj fs => "\x7b" ++ String.intercalate ", " (pyReprFields fs) ++ "\x7d"

/-- Python `repr()` of a JSON-decoded value (strings quoted). -/
def pyRepr : JValue → String
  | .null => "None"
  | .bool true => "True"
  | .bool false => "False"
  | .num n => toString n
  | .str s => "\x27" ++ s ++ "\x27"
  | .arr xs => "[" ++ String.intercalate ", " (pyReprList xs) ++ "]"
  | .obj fs => "\x7b" ++ String.intercalate ", " (pyReprFields fs) ++ "\x7d"

def pyReprList : List JValue → List String
  | [] => []
  | x :: xs => pyRepr x :: pyReprList xs

def pyReprFields : List (String × JValue) → List String
  | [] => []
  | (k, v) :: fs => ("\x27" ++ k ++ "\x27: " ++ pyRepr v) :: pyReprFields fs

end

/-- `CLOUDFLARE_API` constant of `ddns.py`. -/
def CLOUDFLARE_API : String := "https://api.cloudflare.com/client/v4/zones"

/-- `TIMEOUT` constant of `ddns.py` (seconds), passed to every `urlopen`. -/
def TIMEOUT : Nat := 30

/-- The normalized result dict `{status, headers, content}` built by
`__http_request`; `content` is the response body, kept in parsed-JSON form
(see the module docstring). -/
structure HttpResponse where
  status : Nat
  headers : List (String × String)
  content : JValue

/-- Outcome of one `urlopen` exchange as delivered by the network: either a
complete response, or an exception (timeout, transport failure, ...) whose
class name and message are recorded. -/
inductive TransportResult where
  | success (r : HttpResponse)
  | failure (excName excMsg : String)

/-- The `urllib.request.Request` as formed by `__http_request`, together with
the timeout handed to `urlopen`. -/
structure FormedRequest where
  url : String
  method : String
  headers : List (String × String)
  body : List (String × JValue)
  timeout : Nat

/-- `urllib.parse.urlencode`, minus percent-escaping. -/
def urlencode (ps : List (String × String)) : String :=
  String.intercalate "&" (ps.map (fun p => p.1 ++ "=" ++ p.2))

/-- Python `str.upper()`, character by character. -/
def pyToUpper (s : String) : String := ⟨s.data.map Char.toUpper⟩

/-- Request formation inside `__http_request`: append the encoded params to
the URL when `params` is nonempty, upper-case the method, and attach the
fixed `TIMEOUT`.  (`data` empty models Python's falsy `{}` default: no JSON
body is sent.) -/
def formRequest (url method : String) (headers : List (String × String))
    (data : List (String × JValue)) (params : List (String × String)) : FormedRequest :=
  { url := if params.isEmpty then url else url ++ "?" ++ urlencode params
    method := pyToUpper method
    headers := headers
    body := data
    timeout := TIMEOUT }

/-- `__http_request`: forms the request and performs the exchange.  Returns
the formed request (for the run's request trace) and `some response` on
success; on any exception during the exchange the source prints the exception
class and message and calls `exit(1)`, modelled as `none` (every caller below
maps it to `Outcome.exited 1`). -/
def http_request (tr : TransportResult) (url method : String)
    (headers : List (String × String)) (data : List (String × JValue))
    (params : List (String × String)) : FormedRequest × Option HttpResponse :=
  (formRequest url method headers data params,
    match tr with
    | .success r => some r
    | .failure _ _ => none)

/-- Result of one reconciler step: a returned value, a `sys.exit` with the
given code, or an uncaught Python exception. -/
inductive StepOut (α : Type) where
  | ret (a : α)
  | exited (code : Nat)
  | crashed

/-- `check_public_ip`: GET `https://api.ipify.org?format=json`; on status 200
extract field `ip` of the parsed body (an uncaught `KeyError` / `TypeError`
when absent), otherwise print the response and `exit(1)`. -/
def check_public_ip (tr : TransportResult) : FormedRequest × StepOut JValue :=
  let pr := http_request tr "https://api.ipify.org" "GET" [] [] [("format", "json")]
  (pr.1,
    match pr.2 with
    | none => .exited 1
    | some r =>
      if r.status = 200 then
        match r.content.getField "ip" with
        | some ip => .ret ip
        | none => .crashed
      else .exited 1)

/-- `check_zone_apex`: GET `{CLOUDFLARE_API}/{zone_id}/dns_records` with a
bearer-token header and query `name={name}&type=A`; on status 200 take
`result[0]` of the parsed body and return its `content` and `id` fields (an
uncaught `IndexError` on an empty list, `KeyError`/`TypeError` on a missing
field or wrong shape), otherwise print the response and `exit(1)`. -/
def check_zone_apex (tr : TransportResult) (api_key name zone_id : String) :
    FormedRequest × StepOut (JValue × JValue) :=
  let url := CLOUDFLARE_API ++ "/" ++ zone_id ++ "/dns_records"
  let pr := http_request tr url "GET" [("Authorization", "Bearer " ++ api_key)] []
      [("name", name), ("type", "A")]
  (pr.1,
    match pr.2 with
    | none => .exited 1
    | some r =>
      if r.status = 200 then
        match (r.content.getField "result").bind (fun res => res.getIdx 0) with
        | none => .crashed
        | some ans =>
          match ans.getField "content", ans.getField "id" with
          | some r_ip, some r_id => .ret (r_ip, r_id)
          | _, _ => .crashed
      else .exited 1)

/-- Date-time as read by `datetime.now()`. -/
structure PyDateTime where
  year : Nat
  month : Nat
  day : Nat
  hour : Nat
  minute : Nat
  second : Nat

/-- Zero-pad a number to the given width, as CPython's `strftime` does for
`%Y` (width 4) and `%m %d %H %M %S` (width 2). -/
def zpad (w n : Nat) : String :=
  ⟨List.replicate (w - (toString n).length) '0'⟩ ++ toString n

/-- `datetime.now().strftime("%Y-%m-%d at %H:%M:%S")`. -/
def strftimeUpdated (t : PyDateTime) : String :=
  zpad 4 t.year ++ "-" ++ zpad 2 t.month ++ "-" ++ zpad 2 t.day ++ " at " ++
    zpad 2 t.hour ++ ":" ++ zpad 2 t.minute ++ ":" ++ zpad 2 t.second

/-- The `comment` string built by `update_zone_apex`. -/
def updateComment (old_ip : JValue) (now : PyDateTime) : String :=
  "Updated from " ++ pyStr old_ip ++ " on " ++ strftimeUpdated now

/-- `update_zone_apex`: PATCH `{CLOUDFLARE_API}/{zone_id}/dns_records/{record_id}`
with bearer-token and JSON content-type headers and body
`{comment: "Updated from {old_ip} on {now}", content: new_ip}`; on status 200
print success and return, otherwise print the response and `exit(1)`. -/
def update_zone_apex (tr : TransportResult) (api_key zone_id : String)
    (record_id old_ip new_ip : JValue) (now : PyDateTime) :
    FormedRequest × StepOut Unit :=
  let url := CLOUDFLARE_API ++ "/" ++ zone_id ++ "/dns_records/" ++ pyStr record_id
  let pr := http_request tr url "PATCH"
      [("Authorization", "Bearer " ++ api_key), ("Content-Type", "application/json")]
      [("comment", .str (updateComment old_ip now)), ("content", new_ip)] []
  (pr.1,
    match pr.2 with
    | none => .exited 1
    | some r => if r.status = 200 then .ret () else .exited 1)

/-- Final state of the process. -/
inductive Outcome where
  | exited (code : Nat)
  | crashed

/-- Exit status the operating system observes: the `sys.exit` code, or 1 for
an uncaught exception (CPython's behaviour). -/
def Outcome.exitStatus : Outcome → Nat
  | .exited c => c
  | .crashed => 1

/-- One run: the HTTP requests issued, in order, and the process outcome. -/
structure RunResult where
  requests : List FormedRequest
  outcome : Outcome

/-- The environment of one run: transport outcomes for the three HTTP slots
the program can reach (public-IP lookup, zone lookup, record PATCH), in
program order, and the current time. -/
structure World where
  ipLookup : TransportResult
  zoneLookup : TransportResult
  recordPatch : TransportResult
  now : PyDateTime

/-- The `__main__` reconciliation sequence of `ddns.py`, after credential
resolution: fetch the public IP, fetch the recorded apex A record, compare,
and PATCH only when they differ (the source tests `public_ip != existing_ip`,
here `JValue.beq ... = false`).  Both terminal branches of the comparison end
in `exit(0)`. -/
def runMain (api_key name zone_id : String) (w : World) : RunResult :=
  match (check_public_ip w.ipLookup).2 with
  | .exited c => ⟨[(check_public_ip w.ipLookup).1], .exited c⟩
  | .crashed => ⟨[(check_public_ip w.ipLookup).1], .crashed⟩
  | .ret public_ip =>
    match (check_zone_apex w.zoneLookup api_key name zone_id).2 with
    | .exited c =>
      ⟨[(check_public_ip w.ipLookup).1, (check_zone_apex w.zoneLookup api_key name zone_id).1],
        .exited c⟩
    | .crashed =>
      ⟨[(check_public_ip w.ipLookup).1, (check_zone_apex w.zoneLookup api_key name zone_id).1],
        .crashed⟩
    | .ret rec =>
      if JValue.beq public_ip rec.1 then
        ⟨[(check_public_ip w.ipLookup).1, (check_zone_apex w.zoneLookup api_key name zone_id).1],
          .exited 0⟩
      else
        match (update_zone_apex w.recordPatch api_key zone_id rec.2 rec.1 public_ip w.now).2 with
        | .ret _ =>
          ⟨[(check_public_ip w.ipLookup).1,
            (check_zone_apex w.zoneLookup api_key name zone_id).1,
            (update_zone_apex w.recordPatch api_key zone_id rec.2 rec.1 public_ip w.now).1],
            .exited 0⟩
        | .exited c =>
          ⟨[(check_public_ip w.ipLookup).1,
            (check_zone_apex w.zoneLookup api_key name zone_id).1,
            (update_zone_apex w.recordPatch api_key zone_id rec.2 rec.1 public_ip w.now).1],
            .exited c⟩
        | .crashed =>
          ⟨[(check_public_ip w.ipLookup).1,
            (check_zone_apex w.zoneLookup api_key name zone_id).1,
            (update_zone_apex w.recordPatch api_key zone_id rec.2 rec.1 public_ip w.now).1],
            .crashed⟩

/-- Number of mutating (PATCH) requests in a request trace. -/
def patchCount (rs : List FormedRequest) : Nat :=
  (rs.filter (fun r => r.method = "PATCH")).length

/-! ## Credential resolver (`_read_envs`) -/

/-- The whitespace characters Python's `str.strip()` removes (the ASCII
ones; non-ASCII Unicode whitespace does not occur in the claims). -/
def isPySpace (c : Char) : Bool :=
  c == ' ' || c == '\t' || c == '\n' || c == '\r' || c == '\x0b' || c == '\x0c'

/-- Python `str.strip()`: drop leading and trailing whitespace. -/
def pyStrip (s : List Char) : List Char :=
  ((s.dropWhile isPySpace).reverse.dropWhile isPySpace).reverse

/-- Python `s.split('=', 1)`: split on the first `=` only.  A line without
`=` yields a one-element list; otherwise the left part and the verbatim
remainder (further `=` included). -/
def splitOnFirstEq (s : List Char) : List (List Char) :=
  if '=' ∈ s then [s.takeWhile (fun c => c ≠ '='), (s.dropWhile (fun c => c ≠ '=')).tail]
  else [s]

/-- One line of the `.env` file as processed by `_read_envs`:
`l.strip().split('=', 1)`. -/
def parseLine (s : String) : List (List Char) :=
  splitOnFirstEq (pyStrip s.data)

/-- The list comprehension `[l[1] for l in lines if l[0] == key]`: `none`
models the `IndexError` raised while building it when some matching line has
no `=` (so no `l[1]`); otherwise the list of values, in file order.
(`parseLine` never yields `[]`, so `l[0]` itself cannot fail.) -/
def collectVals : List String → List Char → Option (List (List Char))
  | [], _ => some []
  | l :: ls, key =>
    let p := parseLine l
    if p.head? = some key then
      match p.get? 1 with
      | none => none
      | some v => (collectVals ls key).map (fun vs => v :: vs)
    else collectVals ls key

/-- `[l[1] for l in lines if l[0] == key][0]` with both `IndexError` sites
mapped to `none`: the comprehension itself, and indexing `[0]` of an empty
comprehension. -/
def fileKeyLookup (lines : List String) (key : List Char) : Option (List Char) :=
  (collectVals lines key).bind List.head?

/-- Result of `_read_envs`: the three credentials, or `exit(1)` after
printing which key is missing from which source. -/
inductive ReadEnvsResult where
  | ok (api_key zone_name zone_id : String)
  | missingFileKey (key : String)
  | missingEnvKey (key : String)

/-- Inputs of `_read_envs`: the co-located `.env` file (`none` when it does
not exist, otherwise its lines as `readlines()` returns them) and the process
environment. -/
structure Env where
  dotenvLines : Option (List String)
  envVars : List (String × String)

/-- `_read_envs`: when the `.env` file exists, all three keys are resolved
from its lines (first occurrence wins, as `[...][0]` does), and a missing key
is fatal; only when the file does not exist are the process environment
variables consulted, in the order `api_key`, `zone_name`, `zone_id` (the
first missing one raises the reported `KeyError`). -/
def read_envs (e : Env) : ReadEnvsResult :=
  match e.dotenvLines with
  | some lines =>
    match fileKeyLookup lines "api_key".data with
    | none => .missingFileKey "api_key"
    | some ak =>
      match fileKeyLookup lines "zone_name".data with
      | none => .missingFileKey "zone_name"
      | some zn =>
        match fileKeyLookup lines "zone_id".data with
        | none => .missingFileKey "zone_id"
        | some zi => .ok ⟨ak⟩ ⟨zn⟩ ⟨zi⟩
  | none =>
    match e.envVars.lookup "api_key" with
    | none => .missingEnvKey "api_key"
    | some ak =>
      match e.envVars.lookup "zone_name" with
      | none => .missingEnvKey "zone_name"
      | some zn =>
        match e.envVars.lookup "zone_id" with
        | none => .missingEnvKey "zone_id"
        | some zi => .ok ak zn zi

/-- The whole program: resolve credentials, then reconcile.  A failed
resolution exits 1 before any HTTP request. -/
def program (e : Env) (w : World) : RunResult :=
  match read_envs e with
  | .ok k n z => runMain k n z w
  | .missingFileKey _ => ⟨[], .exited 1⟩
  | .missingEnvKey _ => ⟨[], .exited 1⟩

/-! ## Startup console output (`__main__`, lines 242-246) -/

/-- Python `s[:3]` on a string's code points. -/
def firstk (n : Nat) (s : List Char) : List Char := s.take n

/-- Python `s[-3:]` on a string's code points (the whole string when it is
shorter than `n`). -/
def lastk (n : Nat) (s : List Char) : List Char := s.drop (s.length - n)

/-- The masked rendering `f"{s[:3]}...{s[-3:]}"` used for the API key and the
zone id. -/
def maskSecret (s : String) : String :=
  ⟨firstk 3 s.data⟩ ++ "..." ++ ⟨lastk 3 s.data⟩

/-- The five `print` arguments of the startup block of `__main__`: the API
key and zone id are masked, the zone name is printed in full. -/
def startupLines (api_key name zone_id : String) : List String :=
  ["Found environment variables:",
   "API key: " ++ maskSecret api_key,
   "Zone   : " ++ name,
   "Zone ID: " ++ maskSecret zone_id,
   "====================\n"]

/-! ## Sample runs (concrete worlds used to instantiate the theorems) -/

/-- Both lookups succeed and the recorded IP equals the public IP. -/
def sampleWorldEq : World :=
  { ipLookup := .success ⟨200, [], .obj [("ip", .str "1.2.3.4")]⟩
    zoneLookup := .success ⟨200, [],
      .obj [("result", .arr [.obj [("content", .str "1.2.3.4"), ("id", .str "R1")]])]⟩
    recordPatch := .success ⟨200, [], .null⟩
    now := ⟨2026, 10, 12, 1, 2, 3⟩ }

/-- Like `sampleWorldEq` but the public IP has changed. -/
def sampleWorldDiff : World :=
  { sampleWorldEq with ipLookup := .success ⟨200, [], .obj [("ip", .str "5.6.7.8")]⟩ }

/-- The zone lookup succeeds with an empty `result` list. -/
def sampleWorldEmptyZone : World :=
  { sampleWorldEq with zoneLookup := .success ⟨200, [], .obj [("result", .arr [])]⟩ }

/-- The public-IP lookup returns 403. -/
def sampleWorld403Ip : World :=
  { sampleWorldEq with ipLookup := .success ⟨403, [], .null⟩ }

/-- The zone lookup returns 403. -/
def sampleWorld403Zone : World :=
  { sampleWorldEq with zoneLookup := .success ⟨403, [], .null⟩ }

/-- The update PATCH returns 403 in a run with differing IPs. -/
def sampleWorld403Patch : World :=
  { sampleWorldDiff with recordPatch := .success ⟨403, [], .null⟩ }

/-- The public-IP lookup raises a transport exception. -/
def sampleWorldNetFail : World :=
  { sampleWorldEq with ipLookup := .failure "URLError" "timed out" }

/-! ## Helper lemmas -/

/-- A trace that stopped after the public-IP lookup holds no PATCH. -/
theorem patchCount_after_ip (tr : TransportResult) :
    patchCount [(check_public_ip tr).1] = 0 := rfl

/-- A trace that stopped after the zone lookup holds no PATCH. -/
theorem patchCount_after_zone (tr1 tr2 : TransportResult) (k n z : String) :
    patchCount [(check_public_ip tr1).1, (check_zone_apex tr2 k n z).1] = 0 := rfl

/-- A full trace holds exactly one PATCH: the update request. -/
theorem patchCount_after_update (tr1 tr2 tr3 : TransportResult) (k n z : String)
    (rid old new : JValue) (t : PyDateTime) :
    patchCount [(check_public_ip tr1).1, (check_zone_apex tr2 k n z).1,
      (update_zone_apex tr3 k z rid old new t).1] = 1 := rfl

/-- `dropWhile` keeps a list whose first element fails the predicate. -/
theorem dropWhile_eq_self_of_head {α : Type} (p : α → Bool) (l : List α) (c : α)
    (h : l.head? = some c) (hc : p c = false) : l.dropWhile p = l := by
  cases l with
  | nil => simp at h
  | cons a t =>
    simp only [List.head?_cons, Option.some.injEq] at h
    subst h
    simp [List.dropWhile_cons, hc]

/-- Unfolding `collectVals` on a line whose key matches and that has a value. -/
theorem collectVals_cons_hit (l : String) (ls : List String) (key : List Char) (v : List Char)
    (hhead : (parseLine l).head? = some key) (hval : (parseLine l).get? 1 = some v) :
    collectVals (l :: ls) key = (collectVals ls key).map (fun vs => v :: vs) := by
  simp only [collectVals]
  rw [hhead, hval, if_pos rfl]

/-- Unfolding `collectVals` on a line whose key does not match. -/
theorem collectVals_cons_miss (l : String) (ls : List String) (key : List Char)
    (hhead : ¬ (parseLine l).head? = some key) :
    collectVals (l :: ls) key = collectVals ls key := by
  simp only [collectVals]
  rw [if_neg hhead]

/-- A bare `api_key` line anywhere makes the comprehension raise `IndexError`. -/
theorem collectVals_bare_none (ls2 : List String) (ls1 : List String) :
    collectVals (ls1 ++ "api_key" :: ls2) "api_key".data = none := by
  induction ls1 with
  | nil => rfl
  | cons l t ih =>
    rw [List.cons_append]
    simp only [collectVals]
    split
    · cases hg : (parseLine l).get? 1 with
      | none => rfl
      | some v =>
        show (collectVals (t ++ "api_key" :: ls2) "api_key".data).map (fun vs => v :: vs) = none
        rw [ih]
        rfl
    · exact ih

/-- Every run issues one, two, or three requests: the IP lookup, then possibly
the zone lookup, then possibly one update PATCH. -/
theorem runMain_requests_shape (k n z : String) (w : World) :
    (runMain k n z w).requests = [(check_public_ip w.ipLookup).1] ∨
    (runMain k n z w).requests =
      [(check_public_ip w.ipLookup).1, (check_zone_apex w.zoneLookup k n z).1] ∨
    ∃ rid old new, (runMain k n z w).requests =
      [(check_public_ip w.ipLookup).1, (check_zone_apex w.zoneLookup k n z).1,
       (update_zone_apex w.recordPatch k z rid old new w.now).1] := by
  cases h1 : (check_public_ip w.ipLookup).2 with
  | exited c =>
    refine Or.inl ?_
    unfold runMain
    simp only [h1]
  | crashed =>
    refine Or.inl ?_
    unfold runMain
    simp only [h1]
  | ret ip =>
    cases h2 : (check_zone_apex w.zoneLookup k n z).2 with
    | exited c =>
      refine Or.inr (Or.inl ?_)
      unfold runMain
      simp only [h1, h2]
    | crashed =>
      refine Or.inr (Or.inl ?_)
      unfold runMain
      simp only [h1, h2]
    | ret p =>
      obtain ⟨old, rid⟩ := p
      cases h3 : JValue.beq ip old with
      | true =>
        refine Or.inr (Or.inl ?_)
        unfold runMain
        simp only [h1, h2, h3, if_true]
      | false =>
        refine Or.inr (Or.inr ⟨rid, old, ip, ?_⟩)
        cases h4 : (update_zone_apex w.recordPatch k z rid old ip w.now).2 with
        | ret a =>
          unfold runMain
          simp only [h1, h2, h3, Bool.false_eq_true, if_false, h4]
        | exited c =>
          unfold runMain
          simp only [h1, h2, h3, Bool.false_eq_true, if_false, h4]
        | crashed =>
          unfold runMain
          simp only [h1, h2, h3, Bool.false_eq_true, if_false, h4]

/-! ## The claims -/

/-- Claim C1: in every run where the fetched public IP equals the recorded
A-record IP the reconciler performs zero mutating (PATCH) calls and the
process exits with code 0; and in general the zone is never mutated — a PATCH
appears in the trace only when the fetched public IP differs from the
recorded one. -/
theorem no_mutation_unless_ip_differs :
    (∀ (k n z : String) (w : World) (ip rec rid : JValue),
      (check_public_ip w.ipLookup).2 = .ret ip →
      (check_zone_apex w.zoneLookup k n z).2 = .ret (rec, rid) →
      JValue.beq ip rec = true →
      patchCount (runMain k n z w).requests = 0 ∧ (runMain k n z w).outcome = .exited 0) ∧
    (∀ (k n z : String) (w : World), 1 ≤ patchCount (runMain k n z w).requests →
      ∃ ip rec rid, (check_public_ip w.ipLookup).2 = .ret ip ∧
        (check_zone_apex w.zoneLookup k n z).2 = .ret (rec, rid) ∧
        JValue.beq ip rec = false) := by
  constructor
  · intro k n z w ip rec rid h1 h2 h3
    have hmain : runMain k n z w =
        ⟨[(check_public_ip w.ipLookup).1, (check_zone_apex w.zoneLookup k n z).1], .exited 0⟩ := by
      unfold runMain
      simp only [h1, h2, h3, if_true]
    rw [hmain]
    exact ⟨patchCount_after_zone _ _ _ _ _, rfl⟩
  · intro k n z w hp
    cases h1 : (check_public_ip w.ipLookup).2 with
    | exited c =>
      unfold runMain at hp
      simp only [h1] at hp
      rw [patchCount_after_ip] at hp
      omega
    | crashed =>
      unfold runMain at hp
      simp only [h1] at hp
      rw [patchCount_after_ip] at hp
      omega
    | ret ip =>
      cases h2 : (check_zone_apex w.zoneLookup k n z).2 with
      | exited c =>
        unfold runMain at hp
        simp only [h1, h2] at hp
        rw [patchCount_after_zone] at hp
        omega
      | crashed =>
        unfold runMain at hp
        simp only [h1, h2] at hp
        rw [patchCount_after_zone] at hp
        omega
      | ret p =>
        obtain ⟨rec, rid⟩ := p
        cases h3 : JValue.beq ip rec with
        | true =>
          unfold runMain at hp
          simp only [h1, h2, h3, if_true] at hp
          rw [patchCount_after_zone] at hp
          omega
        | false =>
          exact ⟨ip, rec, rid, rfl, rfl, h3⟩

/-- Claim C1, witness: a concrete equal-IP run with zero PATCH calls and
exit code 0. -/
theorem no_mutation_unless_ip_differs_witness :
    JValue.beq (.str "1.2.3.4") (.str "1.2.3.4") = true ∧
    patchCount (runMain "K" "example.com" "Z1" sampleWorldEq).requests = 0 ∧
    (runMain "K" "example.com" "Z1" sampleWorldEq).outcome = .exited 0 := by
  refine ⟨rfl, ?_, ?_⟩
  · exact (no_mutation_unless_ip_differs.1 "K" "example.com" "Z1" sampleWorldEq
      (.str "1.2.3.4") (.str "1.2.3.4") (.str "R1") rfl rfl rfl).1
  · exact (no_mutation_unless_ip_differs.1 "K" "example.com" "Z1" sampleWorldEq
      (.str "1.2.3.4") (.str "1.2.3.4") (.str "R1") rfl rfl rfl).2

/-- Claim C2: when the fetched public IP differs from the recorded IP the
reconciler performs exactly one mutating call — a PATCH to the looked-up
record (its id in the URL) whose JSON body field `content` is the new public
IP and whose `comment` contains the old IP and the local timestamp formatted
`YYYY-MM-DD at HH:MM:SS` (`strftimeUpdated`); when that PATCH returns status
200 the process exits with code 0. -/
theorem single_patch_on_ip_change (k n z : String) (w : World)
    (ip_new ip_old rid : JValue) (resp : HttpResponse)
    (h1 : (check_public_ip w.ipLookup).2 = .ret ip_new)
    (h2 : (check_zone_apex w.zoneLookup k n z).2 = .ret (ip_old, rid))
    (h3 : JValue.beq ip_new ip_old = false)
    (h4 : w.recordPatch = .success resp)
    (h5 : resp.status = 200) :
    (runMain k n z w).requests =
      [(check_public_ip w.ipLookup).1, (check_zone_apex w.zoneLookup k n z).1,
       (update_zone_apex w.recordPatch k z rid ip_old ip_new w.now).1] ∧
    patchCount (runMain k n z w).requests = 1 ∧
    (update_zone_apex w.recordPatch k z rid ip_old ip_new w.now).1.method = "PATCH" ∧
    (update_zone_apex w.recordPatch k z rid ip_old ip_new w.now).1.url =
      CLOUDFLARE_API ++ "/" ++ z ++ "/dns_records/" ++ pyStr rid ∧
    (update_zone_apex w.recordPatch k z rid ip_old ip_new w.now).1.body =
      [("comment", .str (updateComment ip_old w.now)), ("content", ip_new)] ∧
    (pyStr ip_old).data <:+: (updateComment ip_old w.now).data ∧
    (strftimeUpdated w.now).data <:+ (updateComment ip_old w.now).data ∧
    (runMain k n z w).outcome = .exited 0 := by
  have hupd : (update_zone_apex w.recordPatch k z rid ip_old ip_new w.now).2 = .ret () := by
    unfold update_zone_apex http_request
    simp only [h4, h5]
    simp
  have hmain : runMain k n z w =
      ⟨[(check_public_ip w.ipLookup).1, (check_zone_apex w.zoneLookup k n z).1,
        (update_zone_apex w.recordPatch k z rid ip_old ip_new w.now).1], .exited 0⟩ := by
    unfold runMain
    simp only [h1, h2, h3, Bool.false_eq_true, if_false, hupd]
  rw [hmain]
  refine ⟨rfl, patchCount_after_update _ _ _ _ _ _ _ _ _ _, rfl, rfl, rfl, ?_, ?_, rfl⟩
  · refine ⟨"Updated from ".data, (" on " ++ strftimeUpdated w.now).data, ?_⟩
    show _ ++ _ ++ _ = (updateComment ip_old w.now).data
    unfold updateComment
    simp only [String.data_append, List.append_assoc]
  · refine ⟨("Updated from " ++ pyStr ip_old ++ " on ").data, ?_⟩
    show _ ++ _ = (updateComment ip_old w.now).data
    unfold updateComment
    simp only [String.data_append, List.append_assoc]

/-- Claim C2, witness: a concrete differing-IP run with exactly one PATCH and
exit code 0. -/
theorem single_patch_on_ip_change_witness :
    JValue.beq (.str "5.6.7.8") (.str "1.2.3.4") = false ∧
    patchCount (runMain "K" "example.com" "Z1" sampleWorldDiff).requests = 1 ∧
    (runMain "K" "example.com" "Z1" sampleWorldDiff).outcome = .exited 0 := by
  refine ⟨rfl, ?_, ?_⟩
  · exact (single_patch_on_ip_change "K" "example.com" "Z1" sampleWorldDiff (.str "5.6.7.8")
      (.str "1.2.3.4") (.str "R1") ⟨200, [], .null⟩ rfl rfl rfl rfl rfl).2.1
  · exact (single_patch_on_ip_change "K" "example.com" "Z1" sampleWorldDiff (.str "5.6.7.8")
      (.str "1.2.3.4") (.str "R1") ⟨200, [], .null⟩ rfl rfl rfl rfl rfl).2.2.2.2.2.2.2

/-- Claim C3: a zone lookup returning status 200 with an empty `result` list
terminates the program with a non-zero exit status (an uncaught `IndexError`
reported as a traceback) without issuing the update PATCH; an empty result is
never treated as a no-op. -/
theorem empty_result_list_fatal (k n z : String) (w : World) (ip : JValue)
    (resp : HttpResponse)
    (h1 : (check_public_ip w.ipLookup).2 = .ret ip)
    (h2 : w.zoneLookup = .success resp)
    (h3 : resp.status = 200)
    (h4 : resp.content.getField "result" = some (.arr [])) :
    (runMain k n z w).outcome = .crashed ∧
    (runMain k n z w).outcome.exitStatus = 1 ∧
    patchCount (runMain k n z w).requests = 0 := by
  have hz : (check_zone_apex w.zoneLookup k n z).2 = .crashed := by
    unfold check_zone_apex http_request
    simp only [h2, h3, h4]
    simp [JValue.getIdx]
  have hmain : runMain k n z w =
      ⟨[(check_public_ip w.ipLookup).1, (check_zone_apex w.zoneLookup k n z).1], .crashed⟩ := by
    unfold runMain
    simp only [h1, hz]
  rw [hmain]
  exact ⟨rfl, rfl, patchCount_after_zone _ _ _ _ _⟩

/-- Claim C3, witness: a concrete empty-result run. -/
theorem empty_result_list_fatal_witness :
    (runMain "K" "example.com" "Z1" sampleWorldEmptyZone).outcome = .crashed ∧
    (runMain "K" "example.com" "Z1" sampleWorldEmptyZone).outcome.exitStatus = 1 ∧
    patchCount (runMain "K" "example.com" "Z1" sampleWorldEmptyZone).requests = 0 :=
  empty_result_list_fatal "K" "example.com" "Z1" sampleWorldEmptyZone (.str "1.2.3.4")
    ⟨200, [], .obj [("result", .arr [])]⟩ rfl rfl rfl rfl

/-- Claim C4: a non-200 response from the public-IP lookup, the zone lookup,
or the update call makes the program exit with code 1, and no further HTTP
request is issued in the sequence (the request trace ends at the failing
call). -/
theorem non200_stops_sequence :
    (∀ (k n z : String) (w : World) (resp : HttpResponse),
      w.ipLookup = .success resp → resp.status ≠ 200 →
      (runMain k n z w).requests = [(check_public_ip w.ipLookup).1] ∧
      (runMain k n z w).outcome = .exited 1) ∧
    (∀ (k n z : String) (w : World) (ip : JValue) (resp : HttpResponse),
      (check_public_ip w.ipLookup).2 = .ret ip →
      w.zoneLookup = .success resp → resp.status ≠ 200 →
      (runMain k n z w).requests =
        [(check_public_ip w.ipLookup).1, (check_zone_apex w.zoneLookup k n z).1] ∧
      (runMain k n z w).outcome = .exited 1) ∧
    (∀ (k n z : String) (w : World) (ip_new ip_old rid : JValue) (resp : HttpResponse),
      (check_public_ip w.ipLookup).2 = .ret ip_new →
      (check_zone_apex w.zoneLookup k n z).2 = .ret (ip_old, rid) →
      JValue.beq ip_new ip_old = false →
      w.recordPatch = .success resp → resp.status ≠ 200 →
      (runMain k n z w).requests =
        [(check_public_ip w.ipLookup).1, (check_zone_apex w.zoneLookup k n z).1,
         (update_zone_apex w.recordPatch k z rid ip_old ip_new w.now).1] ∧
      (runMain k n z w).outcome = .exited 1) := by
  refine ⟨?_, ?_, ?_⟩
  · intro k n z w resp h1 h2
    have hs : (check_public_ip w.ipLookup).2 = .exited 1 := by
      unfold check_public_ip http_request
      simp only [h1]
      simp [h2]
    have hmain : runMain k n z w = ⟨[(check_public_ip w.ipLookup).1], .exited 1⟩ := by
      unfold runMain
      simp only [hs]
    rw [hmain]
    exact ⟨rfl, rfl⟩
  · intro k n z w ip resp h1 h2 h3
    have hz : (check_zone_apex w.zoneLookup k n z).2 = .exited 1 := by
      unfold check_zone_apex http_request
      simp only [h2]
      simp [h3]
    have hmain : runMain k n z w =
        ⟨[(check_public_ip w.ipLookup).1, (check_zone_apex w.zoneLookup k n z).1], .exited 1⟩ := by
      unfold runMain
      simp only [h1, hz]
    rw [hmain]
    exact ⟨rfl, rfl⟩
  · intro k n z w ip_new ip_old rid resp h1 h2 h3 h4 h5
    have hupd : (update_zone_apex w.recordPatch k z rid ip_old ip_new w.now).2 = .exited 1 := by
      unfold update_zone_apex http_request
      simp only [h4]
      simp [h5]
    have hmain : runMain k n z w =
        ⟨[(check_public_ip w.ipLookup).1, (check_zone_apex w.zoneLookup k n z).1,
          (update_zone_apex w.recordPatch k z rid ip_old ip_new w.now).1], .exited 1⟩ := by
      unfold runMain
      simp only [h1, h2, h3, Bool.false_eq_true, if_false, hupd]
    rw [hmain]
    exact ⟨rfl, rfl⟩

/-- Claim C4, witness: concrete 403 responses at each of the three call
sites. -/
theorem non200_stops_sequence_witness :
    ((runMain "K" "example.com" "Z1" sampleWorld403Ip).requests.length = 1 ∧
      (runMain "K" "example.com" "Z1" sampleWorld403Ip).outcome = .exited 1) ∧
    ((runMain "K" "example.com" "Z1" sampleWorld403Zone).requests.length = 2 ∧
      (runMain "K" "example.com" "Z1" sampleWorld403Zone).outcome = .exited 1) ∧
    (runMain "K" "example.com" "Z1" sampleWorld403Patch).outcome = .exited 1 := by
  refine ⟨⟨?_, ?_⟩, ⟨?_, ?_⟩, ?_⟩
  · rw [(non200_stops_sequence.1 "K" "example.com" "Z1" sampleWorld403Ip ⟨403, [], .null⟩ rfl
      (by decide)).1]
    rfl
  · exact (non200_stops_sequence.1 "K" "example.com" "Z1" sampleWorld403Ip ⟨403, [], .null⟩ rfl
      (by decide)).2
  · rw [(non200_stops_sequence.2.1 "K" "example.com" "Z1" sampleWorld403Zone (.str "1.2.3.4")
      ⟨403, [], .null⟩ rfl rfl (by decide)).1]
    rfl
  · exact (non200_stops_sequence.2.1 "K" "example.com" "Z1" sampleWorld403Zone (.str "1.2.3.4")
      ⟨403, [], .null⟩ rfl rfl (by decide)).2
  · exact (non200_stops_sequence.2.2 "K" "example.com" "Z1" sampleWorld403Patch (.str "5.6.7.8")
      (.str "1.2.3.4") (.str "R1") ⟨403, [], .null⟩ rfl rfl rfl rfl (by decide)).2

/-- Claim C5: when the `.env` file exists all three keys are resolved from it
alone — the result does not depend on the process environment at all, a key
missing from the file is reported as that missing key and is fatal no matter
what the environment holds, and on success the three values are the file
values; environment variables produce the credentials only when the file does
not exist. -/
theorem dotenv_exclusive_resolution :
    (∀ (lines : List String) (ev1 ev2 : List (String × String)),
      read_envs ⟨some lines, ev1⟩ = read_envs ⟨some lines, ev2⟩) ∧
    (∀ (lines : List String) (ev : List (String × String)),
      fileKeyLookup lines "api_key".data = none →
      read_envs ⟨some lines, ev⟩ = .missingFileKey "api_key") ∧
    (∀ (lines : List String) (ev : List (String × String)) (a : List Char),
      fileKeyLookup lines "api_key".data = some a →
      fileKeyLookup lines "zone_name".data = none →
      read_envs ⟨some lines, ev⟩ = .missingFileKey "zone_name") ∧
    (∀ (lines : List String) (ev : List (String × String)) (a b : List Char),
      fileKeyLookup lines "api_key".data = some a →
      fileKeyLookup lines "zone_name".data = some b →
      fileKeyLookup lines "zone_id".data = none →
      read_envs ⟨some lines, ev⟩ = .missingFileKey "zone_id") ∧
    (∀ (lines : List String) (ev : List (String × String)) (a b c : List Char),
      fileKeyLookup lines "api_key".data = some a →
      fileKeyLookup lines "zone_name".data = some b →
      fileKeyLookup lines "zone_id".data = some c →
      read_envs ⟨some lines, ev⟩ = .ok ⟨a⟩ ⟨b⟩ ⟨c⟩) ∧
    (∀ (ev : List (String × String)) (a b c : String),
      ev.lookup "api_key" = some a → ev.lookup "zone_name" = some b →
      ev.lookup "zone_id" = some c →
      read_envs ⟨none, ev⟩ = .ok a b c) := by
  refine ⟨fun lines ev1 ev2 => rfl, ?_, ?_, ?_, ?_, ?_⟩
  · intro lines ev h1
    unfold read_envs
    simp only [h1]
  · intro lines ev a h1 h2
    unfold read_envs
    simp only [h1, h2]
  · intro lines ev a b h1 h2 h3
    unfold read_envs
    simp only [h1, h2, h3]
  · intro lines ev a b c h1 h2 h3
    unfold read_envs
    simp only [h1, h2, h3]
  · intro ev a b c h1 h2 h3
    unfold read_envs
    simp only [h1, h2, h3]

/-- Claim C5, witness: a file lacking `api_key` fails even though the
environment provides it, and the environment is used when no file exists. -/
theorem dotenv_exclusive_resolution_witness :
    read_envs ⟨some ["zone_name=example.com", "zone_id=Z"], [("api_key", "ENVKEY")]⟩ =
      .missingFileKey "api_key" ∧
    read_envs ⟨none, [("api_key", "K"), ("zone_name", "N"), ("zone_id", "Z")]⟩ =
      .ok "K" "N" "Z" :=
  ⟨dotenv_exclusive_resolution.2.1 _ _ rfl,
    dotenv_exclusive_resolution.2.2.2.2.2 _ "K" "N" "Z" rfl rfl rfl⟩

/-- Claim C6 fails as stated: each raw line is stripped of surrounding
whitespace before the split, so the value `abc= ` — which contains `=` — in
the line `api_key=` + `abc= ` resolves to `abc=`, not to the verbatim value. -/
theorem split_verbatim_counterexample :
    '=' ∈ ("abc= " : String).data ∧
    read_envs ⟨some ["api_key=" ++ "abc= ", "zone_name=n", "zone_id=z"], []⟩ =
      .ok "abc=" "n" "z" ∧
    ("abc=" : String) ≠ "abc= " :=
  ⟨by decide, by rfl, by decide⟩

/-- Claim C6 (amended): each line is stripped of surrounding whitespace and
then split on the first `=` only, the right side — further `=` characters
included — being the value; hence every value `v` containing `=` whose final
character is not whitespace round-trips exactly through a line
`api_key=` + `v`. -/
theorem split_verbatim_amended (v : String) (c : Char)
    (h1 : '=' ∈ v.data)
    (h2 : v.data.getLast? = some c)
    (h3 : isPySpace c = false) :
    parseLine ("api_key=" ++ v) = ["api_key".data, v.data] ∧
    ∀ ev : List (String × String),
      read_envs ⟨some ["api_key=" ++ v, "zone_name=n", "zone_id=z"], ev⟩ = .ok v "n" "z" := by
  have hdata : ("api_key=" ++ v).data = "api_key=".data ++ v.data := String.data_append _ _
  have hvne : v.data ≠ [] := by
    intro hz
    rw [hz] at h1
    exact absurd h1 (List.not_mem_nil _)
  have hstrip : pyStrip (("api_key=" ++ v).data) = "api_key=".data ++ v.data := by
    rw [hdata]
    unfold pyStrip
    have hfront : ("api_key=".data ++ v.data).dropWhile isPySpace =
        "api_key=".data ++ v.data := by
      rfl
    rw [hfront]
    have hrev : ("api_key=".data ++ v.data).reverse.dropWhile isPySpace =
        ("api_key=".data ++ v.data).reverse := by
      apply dropWhile_eq_self_of_head isPySpace _ c _ h3
      rw [List.head?_reverse]
      rw [List.getLast?_append_of_ne_nil _ hvne]
      exact h2
    rw [hrev, List.reverse_reverse]
  have hparse : parseLine ("api_key=" ++ v) = ["api_key".data, v.data] := by
    unfold parseLine
    rw [hstrip]
    unfold splitOnFirstEq
    rw [if_pos (List.mem_append_left _ (by decide : '=' ∈ "api_key=".data))]
    rfl
  refine ⟨hparse, ?_⟩
  intro ev
  have hcoll1 : collectVals ["api_key=" ++ v, "zone_name=n", "zone_id=z"] "api_key".data =
      some [v.data] := by
    rw [collectVals_cons_hit _ _ _ v.data (by rw [hparse]; rfl) (by rw [hparse]; rfl)]
    rfl
  have hfk1 : fileKeyLookup ["api_key=" ++ v, "zone_name=n", "zone_id=z"] "api_key".data =
      some v.data := by
    unfold fileKeyLookup
    rw [hcoll1]
    rfl
  have hmiss2 : ¬ (parseLine ("api_key=" ++ v)).head? = some "zone_name".data := by
    rw [hparse, List.head?_cons]
    decide
  have hmiss3 : ¬ (parseLine ("api_key=" ++ v)).head? = some "zone_id".data := by
    rw [hparse, List.head?_cons]
    decide
  have hfk2 : fileKeyLookup ["api_key=" ++ v, "zone_name=n", "zone_id=z"] "zone_name".data =
      some "n".data := by
    unfold fileKeyLookup
    rw [collectVals_cons_miss _ _ _ hmiss2]
    rfl
  have hfk3 : fileKeyLookup ["api_key=" ++ v, "zone_name=n", "zone_id=z"] "zone_id".data =
      some "z".data := by
    unfold fileKeyLookup
    rw [collectVals_cons_miss _ _ _ hmiss3]
    rfl
  unfold read_envs
  simp only [hfk1, hfk2, hfk3]

/-- Claim C6 (amended), witness: the value `abc=def` round-trips. -/
theorem split_verbatim_amended_witness :
    read_envs ⟨some ["api_key=" ++ "abc=def", "zone_name=n", "zone_id=z"], []⟩ =
      .ok "abc=def" "n" "z" :=
  (split_verbatim_amended "abc=def" 'f' (by decide) rfl (by decide)).2 []

/-- Claim C7: every exchange carries the fixed 30-second timeout (`TIMEOUT`
on every formed request of every run); each exchange yields either the
complete delivered response or the fatal outcome (`none`, printed and
`exit(1)`); and a transport exception at any of the three call sites
terminates the process with exit code 1 without any further request. -/
theorem fixed_timeout_and_fatal_transport :
    (TIMEOUT = 30 ∧
      ∀ (tr : TransportResult) (url m : String) (hs : List (String × String))
        (d : List (String × JValue)) (ps : List (String × String)),
        (http_request tr url m hs d ps).1.timeout = TIMEOUT) ∧
    (∀ (k n z : String) (w : World) (r : FormedRequest),
      r ∈ (runMain k n z w).requests → r.timeout = 30) ∧
    (∀ (tr : TransportResult) (url m : String) (hs : List (String × String))
        (d : List (String × JValue)) (ps : List (String × String)),
      (∃ resp, tr = .success resp ∧ (http_request tr url m hs d ps).2 = some resp) ∨
      (∃ en em, tr = .failure en em ∧ (http_request tr url m hs d ps).2 = none)) ∧
    (∀ (k n z : String) (w : World) (en em : String),
      (w.ipLookup = .failure en em →
        runMain k n z w = ⟨[(check_public_ip w.ipLookup).1], .exited 1⟩) ∧
      (∀ ip, (check_public_ip w.ipLookup).2 = .ret ip → w.zoneLookup = .failure en em →
        runMain k n z w =
          ⟨[(check_public_ip w.ipLookup).1, (check_zone_apex w.zoneLookup k n z).1],
            .exited 1⟩) ∧
      (∀ ip_new ip_old rid, (check_public_ip w.ipLookup).2 = .ret ip_new →
        (check_zone_apex w.zoneLookup k n z).2 = .ret (ip_old, rid) →
        JValue.beq ip_new ip_old = false → w.recordPatch = .failure en em →
        (runMain k n z w).outcome = .exited 1)) := by
  refine ⟨⟨rfl, fun _ _ _ _ _ _ => rfl⟩, ?_, ?_, ?_⟩
  · intro k n z w r hr
    rcases runMain_requests_shape k n z w with h | h | ⟨rid, old, new, h⟩ <;> rw [h] at hr <;>
      simp only [List.mem_cons, List.not_mem_nil, or_false] at hr
    · subst hr
      rfl
    · rcases hr with rfl | rfl <;> rfl
    · rcases hr with rfl | rfl | rfl <;> rfl
  · intro tr url m hs d ps
    cases tr with
    | success resp => exact Or.inl ⟨resp, rfl, rfl⟩
    | failure en em => exact Or.inr ⟨en, em, rfl, rfl⟩
  · intro k n z w en em
    refine ⟨?_, ?_, ?_⟩
    · intro h
      have hs : (check_public_ip w.ipLookup).2 = .exited 1 := by
        unfold check_public_ip http_request
        simp only [h]
      unfold runMain
      simp only [hs]
    · intro ip h1 h2
      have hz : (check_zone_apex w.zoneLookup k n z).2 = .exited 1 := by
        unfold check_zone_apex http_request
        simp only [h2]
      unfold runMain
      simp only [h1, hz]
    · intro ip_new ip_old rid h1 h2 h3 h4
      have hupd : (update_zone_apex w.recordPatch k z rid ip_old ip_new w.now).2 =
          .exited 1 := by
        unfold update_zone_apex http_request
        simp only [h4]
      unfold runMain
      simp only [h1, h2, h3, Bool.false_eq_true, if_false, hupd]

/-- Claim C7, witness: a run whose public-IP lookup raises a transport
exception exits 1 after that single request. -/
theorem fixed_timeout_and_fatal_transport_witness :
    runMain "K" "example.com" "Z1" sampleWorldNetFail =
      ⟨[(check_public_ip sampleWorldNetFail.ipLookup).1], .exited 1⟩ :=
  (fixed_timeout_and_fatal_transport.2.2.2 "K" "example.com" "Z1" sampleWorldNetFail
    "URLError" "timed out").1 rfl

/-- Claim C8 fails as stated: the startup block prints the zone name in full
(only the API key and the zone id are masked), so two credential sets that
agree on the first 3 and last 3 characters of every secret can still produce
different console output. -/
theorem masking_hyperproperty_counterexample :
    firstk 3 "example.com".data = firstk 3 "exabbbbb.com".data ∧
    lastk 3 "example.com".data = lastk 3 "exabbbbb.com".data ∧
    firstk 3 "apikey123456".data = firstk 3 "apikey123456".data ∧
    lastk 3 "apikey123456".data = lastk 3 "apikey123456".data ∧
    firstk 3 "zoneid987654".data = firstk 3 "zoneid987654".data ∧
    lastk 3 "zoneid987654".data = lastk 3 "zoneid987654".data ∧
    startupLines "apikey123456" "example.com" "zoneid987654" ≠
      startupLines "apikey123456" "exabbbbb.com" "zoneid987654" := by
  refine ⟨rfl, rfl, rfl, rfl, rfl, rfl, ?_⟩
  decide

/-- Claim C8 (amended): the startup lines mask only the API key and the zone
id, each shown as its first 3 characters, an ellipsis, and its last 3
characters; any two credential sets agreeing on those four masked parts and
on the full zone name produce identical startup console output. -/
theorem masking_hyperproperty_amended (k1 k2 z1 z2 n : String)
    (hk1 : firstk 3 k1.data = firstk 3 k2.data) (hk2 : lastk 3 k1.data = lastk 3 k2.data)
    (hz1 : firstk 3 z1.data = firstk 3 z2.data) (hz2 : lastk 3 z1.data = lastk 3 z2.data) :
    startupLines k1 n z1 = startupLines k2 n z2 := by
  unfold startupLines maskSecret
  rw [hk1, hk2, hz1, hz2]

/-- Claim C8 (amended), witness: two concrete credential sets differing only
in the hidden middles of the API key and zone id. -/
theorem masking_hyperproperty_amended_witness :
    startupLines "abcXYdef" "example.com" "zid12uvw" =
      startupLines "abcQQdef" "example.com" "zid34uvw" :=
  masking_hyperproperty_amended "abcXYdef" "abcQQdef" "zid12uvw" "zid34uvw" "example.com"
    rfl rfl rfl rfl

/-- Claim C9: a line consisting of the bare key `api_key` with no `=`
separator, anywhere in the `.env` file, makes resolution report `api_key` as
missing and exit non-zero, even when other lines — before or after it —
supply well-formed `api_key=value` pairs. -/
theorem bare_key_line_fatal :
    (∀ (ls1 ls2 : List String) (ev : List (String × String)),
      read_envs ⟨some (ls1 ++ "api_key" :: ls2), ev⟩ = .missingFileKey "api_key") ∧
    read_envs ⟨some ["api_key=goodvalue", "api_key", "zone_name=n", "zone_id=z"], []⟩ =
      .missingFileKey "api_key" := by
  constructor
  · intro ls1 ls2 ev
    have h : fileKeyLookup (ls1 ++ "api_key" :: ls2) "api_key".data = none := by
      unfold fileKeyLookup
      rw [collectVals_bare_none]
      rfl
    unfold read_envs
    simp only [h]
  · rfl

/-- Claim C10: for a secret of at most 6 characters the masked rendering —
first 3 characters, an ellipsis, last 3 characters — reveals every character
of the secret: the secret is fully reconstructible from the two visible
parts, and each of its characters appears in them. -/
theorem short_secret_mask_reveals_all (s : String) (h : s.data.length ≤ 6) :
    firstk 3 s.data ++ List.drop (6 - s.data.length) (lastk 3 s.data) = s.data ∧
    ∀ (i : Nat) (hi : i < s.data.length),
      s.data.get ⟨i, hi⟩ ∈ firstk 3 s.data ++ lastk 3 s.data := by
  have hrec : firstk 3 s.data ++ List.drop (6 - s.data.length) (lastk 3 s.data) = s.data := by
    unfold firstk lastk
    rw [List.drop_drop]
    by_cases h3 : s.data.length ≤ 3
    · have e1 : s.data.take 3 = s.data := List.take_of_length_le h3
      have e2 : List.drop (s.data.length - 3 + (6 - s.data.length)) s.data = [] := by
        apply List.drop_eq_nil_of_le
        omega
      rw [e1, e2, List.append_nil]
    · push_neg at h3
      have e3 : s.data.length - 3 + (6 - s.data.length) = 3 := by omega
      rw [e3, List.take_append_drop]
  refine ⟨hrec, ?_⟩
  intro i hi
  have hmem : s.data.get ⟨i, hi⟩ ∈ s.data := List.get_mem s.data i hi
  generalize hg : s.data.get ⟨i, hi⟩ = x at hmem ⊢
  rw [← hrec] at hmem
  rcases List.mem_append.mp hmem with hL | hR
  · exact List.mem_append_left _ hL
  · exact List.mem_append_right _ (List.drop_subset _ _ hR)

/-- Claim C10, witness: the 5-character secret `abcde` is reconstructible
from its masked rendering. -/
theorem short_secret_mask_reveals_all_witness :
    ("abcde" : String).data.length ≤ 6 ∧
    firstk 3 "abcde".data ++ List.drop (6 - "abcde".data.length) (lastk 3 "abcde".data) =
      "abcde".data :=
  ⟨by decide, (short_secret_mask_reveals_all "abcde" (by decide)).1⟩
